import Mathlib

/-!
Verification of the gitgrade-analyzer backend (`src/backend/analyzer.js`)
against its natural-language specification.

The JavaScript analyzer is shallowly embedded: the pure scorer becomes a
Lean function over a `MetricsRecord` structure, the URL parser becomes a
scanning function over `List Char` mirroring the JS regex
`github\.com\/([^\/]+)\/([^\/]+)` and the `String.replace` call, the
stateful fetch and AI-insight operations become functions over explicit
environments whose fields hold the outcome of each external call as
`Except String _`.
-/

/-- The flat metrics record assembled by `fetchMetrics`
(spec section 3; `src/backend/analyzer.js` lines 50-126).
Documented field types: counts are non-negative integers, flags booleans. -/
structure MetricsRecord where
  name : String := ""
  stars : Nat := 0
  forks : Nat := 0
  watchers : Nat := 0
  open_issues : Nat := 0
  primary_language : String := "Unknown"
  languages : List String := []
  has_readme : Bool := false
  readme_length : Nat := 0
  total_commits : Nat := 0
  recent_commits : Nat := 0
  branch_count : Nat := 0
  total_prs : Nat := 0
  has_tests : Bool := false
  has_cicd : Bool := false
deriving DecidableEq, Repr

/-- `RepoAnalyzer.calculateScore` (`src/backend/analyzer.js` lines 172-231):
the seven sequential `score +=` blocks, followed by `Math.min(100, score)`.
Each parenthesised summand is one `if` block of the source, in source order. -/
def calculateScore (m : MetricsRecord) : Nat :=
  min 100
    ((if m.has_readme then
        if m.readme_length > 1000 then 20
        else if m.readme_length > 500 then 15
        else 10
      else 0) +
     (if m.total_commits ≥ 100 then 25
      else if m.total_commits ≥ 50 then 20
      else if m.total_commits ≥ 20 then 15
      else max 5 (m.total_commits / 2)) +
     (if m.recent_commits > 20 then 15
      else if m.recent_commits > 10 then 10
      else if m.recent_commits > 0 then 5
      else 0) +
     (if m.has_tests then 20 else 0) +
     (if m.has_cicd then 10 else 0) +
     (if m.branch_count > 3 then 5
      else if m.branch_count > 1 then 3
      else 0) +
     (if m.total_prs > 10 then 5
      else if m.total_prs > 0 then 3
      else 0))

/-- README dimension rule from the spec table in section 4.3:
length>1000 → 20; >500 → 15; else (has_readme true) → 10; absent → 0. -/
def specReadmeRule (m : MetricsRecord) : Nat :=
  if m.has_readme then
    if m.readme_length > 1000 then 20
    else if m.readme_length > 500 then 15
    else 10
  else 0

/-- Commit-volume dimension rule from the spec table in section 4.3:
total_commits≥100 → 25; ≥50 → 20; ≥20 → 15; else max(5, floor(total_commits/2)). -/
def specCommitVolumeRule (m : MetricsRecord) : Nat :=
  if m.total_commits ≥ 100 then 25
  else if m.total_commits ≥ 50 then 20
  else if m.total_commits ≥ 20 then 15
  else max 5 (m.total_commits / 2)

/-- Recent-activity dimension rule from the spec table in section 4.3:
recent_commits>20 → 15; >10 → 10; >0 → 5; else 0. -/
def specRecentActivityRule (m : MetricsRecord) : Nat :=
  if m.recent_commits > 20 then 15
  else if m.recent_commits > 10 then 10
  else if m.recent_commits > 0 then 5
  else 0

/-- Tests dimension rule from the spec table in section 4.3. -/
def specTestsRule (m : MetricsRecord) : Nat :=
  if m.has_tests then 20 else 0

/-- CI/CD dimension rule from the spec table in section 4.3. -/
def specCicdRule (m : MetricsRecord) : Nat :=
  if m.has_cicd then 10 else 0

/-- Branch-usage dimension rule from the spec table in section 4.3:
branch_count>3 → 5; >1 → 3; else 0. -/
def specBranchUsageRule (m : MetricsRecord) : Nat :=
  if m.branch_count > 3 then 5
  else if m.branch_count > 1 then 3
  else 0

/-- Pull-requests dimension rule from the spec table in section 4.3:
total_prs>10 → 5; >0 → 3; else 0. -/
def specPullRequestsRule (m : MetricsRecord) : Nat :=
  if m.total_prs > 10 then 5
  else if m.total_prs > 0 then 3
  else 0

/-- The sum of the seven spec dimension rules, before the final clamp. -/
def specRuleSum (m : MetricsRecord) : Nat :=
  specReadmeRule m + specCommitVolumeRule m + specRecentActivityRule m +
    specTestsRule m + specCicdRule m + specBranchUsageRule m +
    specPullRequestsRule m

/-- Boolean test that `pat` is a prefix of `l` (character-by-character). -/
def leadsWith : List Char → List Char → Bool
  | [], _ => true
  | _ :: _, [] => false
  | p :: ps, c :: cs => (p == c) && leadsWith ps cs

/-- The literal part of the JS regex `github\.com\/` as a character list. -/
def hostPat : List Char :=
  ['g', 'i', 't', 'h', 'u', 'b', '.', 'c', 'o', 'm', '/']

/-- The literal `.git` searched by the replace call on the repo group. -/
def dotGit : List Char := ['.', 'g', 'i', 't']

/-- Anchored match of `github\.com\/([^\/]+)\/([^\/]+)` at the head of `l`.
Both capture groups are greedy runs of non-slash characters, so group 1 is
everything up to the next `/` (required to exist and be non-empty) and
group 2 is everything from there up to the following `/` or the end. -/
def tryMatchGit (l : List Char) : Option (List Char × List Char) :=
  if leadsWith hostPat l then
    match (l.drop hostPat.length).dropWhile (fun c => c != '/') with
    | '/' :: r2 =>
      if ((l.drop hostPat.length).takeWhile (fun c => c != '/')).isEmpty then
        none
      else if (r2.takeWhile (fun c => c != '/')).isEmpty then none
      else
        some ((l.drop hostPat.length).takeWhile (fun c => c != '/'),
          r2.takeWhile (fun c => c != '/'))
    | _ => none
  else none

/-- Leftmost match of the regex: JS `String.match` tries each start
position left to right and returns the first full match. -/
def scanGit : List Char → Option (List Char × List Char)
  | [] => none
  | c :: rest =>
    match tryMatchGit (c :: rest) with
    | some p => some p
    | none => scanGit rest

/-- JS `String.replace` with a string pattern and empty replacement:
remove the first occurrence of `pat`, if any. -/
def removeFirstSub (pat : List Char) : List Char → List Char
  | [] => []
  | c :: rest =>
    if leadsWith pat (c :: rest) then (c :: rest).drop pat.length
    else c :: removeFirstSub pat rest

/-- First occurrence of `pat` in the list: returns the text before the
occurrence and the text after it, or `none` when `pat` never occurs. -/
def findSub (pat : List Char) : List Char → Option (List Char × List Char)
  | [] => none
  | c :: rest =>
    if leadsWith pat (c :: rest) then some ([], (c :: rest).drop pat.length)
    else
      match findSub pat rest with
      | some (b, a) => some (c :: b, a)
      | none => none

/-- Whether `pat` occurs anywhere in `l` as a contiguous substring. -/
def hasSub (pat l : List Char) : Bool := (findSub pat l).isSome

/-- `RepoAnalyzer.parseRepoUrl` (`src/backend/analyzer.js` lines 15-22):
match `github\.com\/([^\/]+)\/([^\/]+)` against the URL, throw
`Invalid GitHub URL` when there is no match, and otherwise return the
first group as owner and the second group with the first occurrence of
`.git` removed as repo. -/
def parseRepoUrl (url : String) : Except String (String × String) :=
  match scanGit url.data with
  | none => Except.error "Invalid GitHub URL"
  | some (o, r) => Except.ok (⟨o⟩, ⟨removeFirstSub dotGit r⟩)

/-- Characters matched by JS `\s` and trimmed by JS `String.trim`
(ASCII portion; every whitespace character in this development is one of
these). -/
def jsWhitespace (c : Char) : Bool :=
  c == ' ' || c == '\t' || c == '\n' || c == '\r' || c == '\x0b' || c == '\x0c'

/-- JS `String.trim`: drop whitespace from both ends. -/
def jsTrim (l : List Char) : List Char :=
  ((l.dropWhile jsWhitespace).reverse.dropWhile jsWhitespace).reverse

/-- JS `String.split(sep)` for a one-character separator. -/
def splitChar (sep : Char) : List Char → List (List Char)
  | [] => [[]]
  | c :: rest =>
    if c = sep then [] :: splitChar sep rest
    else
      match splitChar sep rest with
      | [] => [[c]]
      | h :: t => (c :: h) :: t

/-- The literal marker `ROADMAP:` on which `responseText` is split. -/
def roadMarker : List Char := ['R', 'O', 'A', 'D', 'M', 'A', 'P', ':']

/-- The literal `SUMMARY:` removed from the pre-marker text. -/
def summaryMarker : List Char := ['S', 'U', 'M', 'M', 'A', 'R', 'Y', ':']

/-- Parts 0 and 1 of the split of `responseText` on `ROADMAP:`: the text
before the first occurrence of the marker, and (when the marker occurs)
the text between the first and second occurrences. -/
def roadParts (l : List Char) : List Char × Option (List Char) :=
  match findSub roadMarker l with
  | none => (l, none)
  | some (b, a) =>
    (b, some (match findSub roadMarker a with
              | none => a
              | some (b2, _) => b2))

/-- The summary extraction of `src/backend/analyzer.js` line 272: part 0
with the first occurrence of `SUMMARY:` removed, then trimmed. -/
def summaryText (l : List Char) : List Char :=
  jsTrim (removeFirstSub summaryMarker (roadParts l).1)

/-- The roadmap text of line 273: part 1 trimmed when present, else empty.
When part 1 is the empty string it is falsy in JS and the untrimmed
branch is taken, but trimming the empty string is also empty, so the two
branches coincide on that case. -/
def roadmapText (l : List Char) : List Char :=
  match (roadParts l).2 with
  | none => []
  | some t => jsTrim t

/-- `line.trim().startsWith('-')` (line 278). -/
def startsWithDash (ln : List Char) : Bool :=
  match jsTrim ln with
  | '-' :: _ => true
  | _ => false

/-- The dash strip of line 279: the replace regex is anchored at the raw
start of the line, so it strips only when the very first character is
`-`, and then also the whitespace run following it. -/
def stripDash (ln : List Char) : List Char :=
  match ln with
  | '-' :: rest => rest.dropWhile jsWhitespace
  | _ => ln

/-- The roadmap extraction pipeline (lines 276-280):
split the roadmap text on newlines, keep lines whose trimmed form starts
with `-`, apply the anchored `-` strip then trim, drop empty results. -/
def roadmapItems (l : List Char) : List (List Char) :=
  (((splitChar '\n' (roadmapText l)).filter startsWithDash).map
      (fun ln => jsTrim (stripDash ln))).filter (fun ln => !ln.isEmpty)

/-- The `{summary, roadmap}` value produced once per analysis. -/
structure InsightResult where
  summary : String
  roadmap : List String
deriving DecidableEq, Repr

/-- The parse of a successfully returned reply
(`src/backend/analyzer.js` lines 270-282). -/
def parseReply (r : String) : InsightResult :=
  ⟨⟨summaryText r.data⟩, (roadmapItems r.data).map (fun ln => (⟨ln⟩ : String))⟩

/-- The fallback summary built when the generation call throws
(lines 288-292), with JS template interpolation rendered by `toString`. -/
def fallbackSummary (m : MetricsRecord) (score : Nat) : String :=
  if score > 70 then
    "Repository demonstrates strong development practices with " ++
      toString m.total_commits ++ " commits and " ++
      (if m.has_tests then "testing" else "active development") ++ "."
  else if score > 40 then
    "Repository shows moderate development practices. " ++
      (if m.has_readme then "Has documentation" else "Needs documentation") ++
      " and " ++
      (if m.has_tests then "includes tests" else "lacks tests") ++ "."
  else
    "Repository is in early stages. Focus on establishing " ++
      (if !m.has_readme then "documentation, " else "") ++
      (if !m.has_tests then "testing, " else "") ++
      "and consistent development practices."

/-- The fallback roadmap (lines 294-301): a six-element list whose entries
are conditionally worded but always present. -/
def fallbackRoadmap (m : MetricsRecord) : List String :=
  [if !m.has_readme then
      "Add comprehensive README with setup instructions and project overview"
    else "Expand README with usage examples and contribution guidelines",
   if !m.has_tests then "Implement unit tests for core functionality"
    else "Increase test coverage to 80%+",
   if !m.has_cicd then "Set up CI/CD pipeline using GitHub Actions"
    else "Enhance CI/CD with automated deployments",
   if m.recent_commits < 10 then
      "Establish regular commit schedule (weekly minimum)"
    else "Maintain consistent commit patterns",
   if m.branch_count ≤ 1 then
      "Adopt feature branch workflow (main + feature branches)"
    else "Continue effective branch management",
   "Add code documentation and inline comments for complex logic"]

/-- The deterministic fallback insight returned when the generation call
throws. -/
def fallbackInsights (m : MetricsRecord) (score : Nat) : InsightResult :=
  ⟨fallbackSummary m score, fallbackRoadmap m⟩

/-- `RepoAnalyzer.generateAIInsights` (`src/backend/analyzer.js` lines
234-305): the outcome of the external call is passed in as `ai`; on success the
reply text is parsed, on a thrown failure the fallback is returned. -/
def generateAIInsights (ai : Except String String) (m : MetricsRecord)
    (score : Nat) : InsightResult :=
  match ai with
  | Except.ok text => parseReply text
  | Except.error _ => fallbackInsights m score

/-- The fields of the repository-metadata response used by `fetchMetrics`
(`src/backend/analyzer.js` lines 55-62). `language` is `Option String`;
the JS or-with-Unknown default also treats the empty string as falsy. -/
structure RepoData where
  name : String
  stargazers_count : Nat
  forks_count : Nat
  watchers_count : Nat
  open_issues_count : Nat
  language : Option String
deriving DecidableEq, Repr

/-- The outcome of each outbound call made during one `fetchMetrics` run.
Each field holds the result of the corresponding API call, or the thrown error
message.
`commitsResp` carries, per returned commit, whether its author date is
after the three-months-ago cutoff computed at fetch time (the only use the
code makes of a commit). `readmeResp` carries the decoded README byte
length. `branchesResp` and `prsResp` carry the returned page lengths.
`rootResp` carries the entry names of the repository root listing, and
`cicdResp` whether each of the five probed CI paths resolves, in probe
order. -/
structure FetchEnv where
  repoInfo : Except String RepoData
  languagesResp : Except String (List String)
  readmeResp : Except String Nat
  commitsResp : Except String (List Bool)
  branchesResp : Except String Nat
  prsResp : Except String Nat
  rootResp : Except String (List String)
  cicdResp : List Bool

/-- The fixed substrings probed by `checkForTests`
(`src/backend/analyzer.js` line 130). -/
def testIndicators : List String :=
  ["test", "tests", "__tests__", "spec", "specs"]

/-- `RepoAnalyzer.checkForTests` (lines 129-147): list the repository
root; true iff the lowercased name of some entry contains one of the
indicators; false when the listing call throws. -/
def checkForTests (env : FetchEnv) : Bool :=
  match env.rootResp with
  | Except.error _ => false
  | Except.ok names =>
    names.any (fun n =>
      testIndicators.any (fun ind => hasSub ind.data (n.data.map Char.toLower)))

/-- `RepoAnalyzer.checkForCICD` (lines 150-169): probe the five fixed
paths in order, short-circuiting on the first that resolves; false when
all probes throw. -/
def checkForCICD (env : FetchEnv) : Bool :=
  env.cicdResp.any (fun b => b)

/-- `RepoAnalyzer.fetchMetrics` (`src/backend/analyzer.js` lines 50-126).
The whole body sits in one try/catch that rethrows
`Failed to fetch metrics: <message>`; only the README fetch (lines 69-76)
and the pull-request fetch (lines 103-113) have inner try/catch blocks
that default their fields, so a thrown failure of the metadata, languages,
commits or branches call propagates to the outer catch. -/
def fetchMetrics (env : FetchEnv) : Except String MetricsRecord :=
  match env.repoInfo with
  | Except.error e => Except.error ("Failed to fetch metrics: " ++ e)
  | Except.ok rd =>
    match env.languagesResp with
    | Except.error e => Except.error ("Failed to fetch metrics: " ++ e)
    | Except.ok langs =>
      let readmePair :=
        match env.readmeResp with
        | Except.ok n => (true, n)
        | Except.error _ => (false, 0)
      match env.commitsResp with
      | Except.error e => Except.error ("Failed to fetch metrics: " ++ e)
      | Except.ok cs =>
        match env.branchesResp with
        | Except.error e => Except.error ("Failed to fetch metrics: " ++ e)
        | Except.ok bc =>
          let prCount :=
            match env.prsResp with
            | Except.ok n => n
            | Except.error _ => 0
          Except.ok
            { name := rd.name
              stars := rd.stargazers_count
              forks := rd.forks_count
              watchers := rd.watchers_count
              open_issues := rd.open_issues_count
              primary_language :=
                match rd.language with
                | some s => if s = "" then "Unknown" else s
                | none => "Unknown"
              languages := langs
              has_readme := readmePair.1
              readme_length := readmePair.2
              total_commits := cs.length
              recent_commits := (cs.filter (fun b => b)).length
              branch_count := bc
              total_prs := prCount
              has_tests := checkForTests env
              has_cicd := checkForCICD env }

/-- The `{score, summary, roadmap, metrics}` payload returned by a
successful analysis. -/
structure AnalysisResult where
  score : Nat
  summary : String
  roadmap : List String
  metrics : MetricsRecord
deriving DecidableEq, Repr

/-- `RepoAnalyzer.analyzeRepository` (`src/backend/analyzer.js` lines
25-47): parse, fetch, score, generate insights, assemble the payload; the
surrounding try/catch rethrows any stage failure as
`Analysis failed: <message>`. `generateAIInsights` itself never throws
(its fallback catches the generation failure). -/
def analyzeRepository (url : String) (env : FetchEnv)
    (ai : Except String String) : Except String AnalysisResult :=
  match parseRepoUrl url with
  | Except.error e => Except.error ("Analysis failed: " ++ e)
  | Except.ok _ =>
    match fetchMetrics env with
    | Except.error e => Except.error ("Analysis failed: " ++ e)
    | Except.ok m =>
      let score := calculateScore m
      let ins := generateAIInsights ai m score
      Except.ok
        { score := score
          summary := ins.summary
          roadmap := ins.roadmap
          metrics := m }

/-- A sample repository-metadata response used in concrete scenarios. -/
def rdSample : RepoData :=
  { name := "widget"
    stargazers_count := 3
    forks_count := 1
    watchers_count := 2
    open_issues_count := 0
    language := some "JavaScript" }

/-- An environment where only the languages call fails. -/
def envLangFail : FetchEnv :=
  { repoInfo := Except.ok rdSample
    languagesResp := Except.error "boom"
    readmeResp := Except.ok 1200
    commitsResp := Except.ok [true, false]
    branchesResp := Except.ok 2
    prsResp := Except.ok 1
    rootResp := Except.ok ["src"]
    cicdResp := [false, false, false, false, false] }

/-- An environment where the repository-metadata call fails. -/
def envRepoFail : FetchEnv :=
  { repoInfo := Except.error "down"
    languagesResp := Except.ok ["JavaScript"]
    readmeResp := Except.ok 1200
    commitsResp := Except.ok [true, false]
    branchesResp := Except.ok 2
    prsResp := Except.ok 1
    rootResp := Except.ok ["src"]
    cicdResp := [false, false, false, false, false] }

/-- An environment where only the commits call fails. -/
def envCommitsFail : FetchEnv :=
  { repoInfo := Except.ok rdSample
    languagesResp := Except.ok ["JavaScript"]
    readmeResp := Except.ok 1200
    commitsResp := Except.error "cfail"
    branchesResp := Except.ok 2
    prsResp := Except.ok 1
    rootResp := Except.ok ["src"]
    cicdResp := [false, false, false, false, false] }

/-- An environment where only the branches call fails. -/
def envBranchesFail : FetchEnv :=
  { repoInfo := Except.ok rdSample
    languagesResp := Except.ok ["JavaScript"]
    readmeResp := Except.ok 1200
    commitsResp := Except.ok [true, false]
    branchesResp := Except.error "bfail"
    prsResp := Except.ok 1
    rootResp := Except.ok ["src"]
    cicdResp := [false, false, false, false, false] }

/-- An environment where the README and pull-request calls fail and every
fatal call succeeds. -/
def envDegraded : FetchEnv :=
  { repoInfo := Except.ok rdSample
    languagesResp := Except.ok ["JavaScript"]
    readmeResp := Except.error "404"
    commitsResp := Except.ok [true, false]
    branchesResp := Except.ok 2
    prsResp := Except.error "403"
    rootResp := Except.ok ["src"]
    cicdResp := [false, false, false, false, false] }

/-- The all-defaults metrics record (every count 0, every flag false). -/
def mrZero : MetricsRecord := {}

theorem calculateScore_eq_ruleSum (m : MetricsRecord) :
    calculateScore m = min 100 (specRuleSum m) := rfl

theorem specCommitVolumeRule_ge_five (m : MetricsRecord) :
    5 ≤ specCommitVolumeRule m := by
  unfold specCommitVolumeRule
  split_ifs <;> omega

theorem leadsWith_self (l t : List Char) : leadsWith l (l ++ t) = true := by
  induction l with
  | nil => rfl
  | cons c cs ih => simp [leadsWith, ih]

theorem takeUntilSlash_append (o t : List Char) (h : '/' ∉ o) :
    (o ++ '/' :: t).takeWhile (fun c => c != '/') = o := by
  induction o with
  | nil => simp [List.takeWhile_cons]
  | cons c cs ih =>
    have hc : (c != '/') = true := by
      simp only [bne_iff_ne, ne_eq]
      exact fun e => h (e ▸ List.mem_cons_self c cs)
    simp only [List.cons_append, List.takeWhile_cons, hc, if_true]
    rw [ih (fun hm => h (List.mem_cons_of_mem _ hm))]

theorem dropUntilSlash_append (o t : List Char) (h : '/' ∉ o) :
    (o ++ '/' :: t).dropWhile (fun c => c != '/') = '/' :: t := by
  induction o with
  | nil => simp [List.dropWhile_cons]
  | cons c cs ih =>
    have hc : (c != '/') = true := by
      simp only [bne_iff_ne, ne_eq]
      exact fun e => h (e ▸ List.mem_cons_self c cs)
    simp only [List.cons_append, List.dropWhile_cons, hc, if_true]
    exact ih (fun hm => h (List.mem_cons_of_mem _ hm))

theorem takeWhile_no_slash (r : List Char) (h : '/' ∉ r) :
    r.takeWhile (fun c => c != '/') = r := by
  induction r with
  | nil => rfl
  | cons c cs ih =>
    have hc : (c != '/') = true := by
      simp only [bne_iff_ne, ne_eq]
      exact fun e => h (e ▸ List.mem_cons_self c cs)
    simp only [List.takeWhile_cons, hc, if_true]
    rw [ih (fun hm => h (List.mem_cons_of_mem _ hm))]

theorem tryMatchGit_hit (o r : List Char) (ho : o ≠ []) (ho2 : '/' ∉ o)
    (hr : r ≠ []) (hr2 : '/' ∉ r) :
    tryMatchGit (hostPat ++ (o ++ '/' :: r)) = some (o, r) := by
  have hoe : o.isEmpty = false := by
    cases o with
    | nil => exact absurd rfl ho
    | cons c cs => rfl
  have hre : r.isEmpty = false := by
    cases r with
    | nil => exact absurd rfl hr
    | cons c cs => rfl
  unfold tryMatchGit
  rw [if_pos (leadsWith_self hostPat (o ++ '/' :: r))]
  rw [List.drop_left]
  rw [dropUntilSlash_append o r ho2]
  rw [takeUntilSlash_append o r ho2]
  split
  next r2 heq =>
    cases heq
    rw [takeWhile_no_slash r hr2, hoe, hre]
    simp
  next x hne =>
    exact absurd rfl (hne r)

theorem scanGit_skip (c : Char) (l : List Char)
    (h : tryMatchGit (c :: l) = none) : scanGit (c :: l) = scanGit l := by
  simp [scanGit, h]

theorem leadsWith_not_g (c : Char) (l : List Char) (h : c ≠ 'g') :
    leadsWith hostPat (c :: l) = false := by
  have hg : ('g' == c) = false := beq_eq_false_iff_ne.mpr (Ne.symm h)
  simp [hostPat, leadsWith, hg]

theorem tryMatchGit_not_g (c : Char) (l : List Char) (h : c ≠ 'g') :
    tryMatchGit (c :: l) = none := by
  unfold tryMatchGit
  rw [if_neg]
  rw [leadsWith_not_g c l h]
  exact Bool.false_ne_true

theorem scanGit_hit (l : List Char) (p : List Char × List Char)
    (h : tryMatchGit l = some p) : scanGit l = some p := by
  cases l with
  | nil =>
    exact absurd h (by rw [show tryMatchGit [] = none from rfl]; exact
      fun he => Option.noConfusion he)
  | cons c rest => simp [scanGit, h]

theorem scanGit_none (l : List Char) (h : hasSub hostPat l = false) :
    scanGit l = none := by
  induction l with
  | nil => rfl
  | cons c rest ih =>
    unfold hasSub at h
    by_cases hl : leadsWith hostPat (c :: rest) = true
    · rw [findSub] at h
      rw [if_pos hl] at h
      simp at h
    · have hl' : leadsWith hostPat (c :: rest) = false := by
        revert hl
        cases leadsWith hostPat (c :: rest) <;> simp
      have ht : tryMatchGit (c :: rest) = none := by
        unfold tryMatchGit
        rw [if_neg]
        rw [hl']
        exact Bool.false_ne_true
      have h2 : hasSub hostPat rest = false := by
        unfold hasSub
        rw [findSub, if_neg (by rw [hl']; exact Bool.false_ne_true)] at h
        cases hf : findSub hostPat rest with
        | none => rfl
        | some p => rw [hf] at h; simp at h
      rw [scanGit_skip c rest ht]
      exact ih h2

theorem scanGit_skip_ne (c : Char) (l : List Char) (h : c ≠ 'g') :
    scanGit (c :: l) = scanGit l :=
  scanGit_skip c l (tryMatchGit_not_g c l h)

theorem scanGit_url (o r : List Char) (ho : o ≠ []) (ho2 : '/' ∉ o)
    (hr : r ≠ []) (hr2 : '/' ∉ r) :
    scanGit ("https://github.com/".data ++ (o ++ '/' :: r)) = some (o, r) := by
  have hform : "https://github.com/".data =
      ['h', 't', 't', 'p', 's', ':', '/', '/'] ++ hostPat := by rfl
  rw [hform, List.append_assoc]
  simp only [List.cons_append, List.nil_append]
  rw [scanGit_skip_ne 'h' _ (by decide)]
  rw [scanGit_skip_ne 't' _ (by decide)]
  rw [scanGit_skip_ne 't' _ (by decide)]
  rw [scanGit_skip_ne 'p' _ (by decide)]
  rw [scanGit_skip_ne 's' _ (by decide)]
  rw [scanGit_skip_ne ':' _ (by decide)]
  rw [scanGit_skip_ne '/' _ (by decide)]
  rw [scanGit_skip_ne '/' _ (by decide)]
  exact scanGit_hit _ _ (tryMatchGit_hit o r ho ho2 hr hr2)

/-- C3 counterexample: the code removes the first occurrence of `.git`
anywhere in the repo segment, not only a trailing suffix — for the URL
`https://github.com/owner/repo.github` it returns repo `repohub`, while
the claim demands the unchanged `repo.github`. -/
theorem parseRepoUrl_counterexample :
    parseRepoUrl "https://github.com/owner/repo.github" =
      Except.ok ("owner", "repohub") ∧
    ("repohub" : String) ≠ "repo.github" :=
  ⟨rfl, by decide⟩

/-- C3 (amended): for every URL of the shape
`https://github.com/<owner>/<repo>` with non-empty, slash-free owner and
repo segments, `parseRepoUrl` returns the exact owner and the repo with
the first occurrence of the substring `.git` removed (this strips a
trailing `.git` suffix when that is the first occurrence, but also strips
an interior one); for every string in which `github.com/` never occurs,
and for a URL whose path lacks a second segment, it fails with
`Invalid GitHub URL`. -/
theorem parseRepoUrl_amended :
    (∀ o r : String, o.data ≠ [] → '/' ∉ o.data → r.data ≠ [] →
      '/' ∉ r.data →
      parseRepoUrl ("https://github.com/" ++ o ++ "/" ++ r) =
        Except.ok (o, ⟨removeFirstSub dotGit r.data⟩)) ∧
    (∀ s : String, hasSub hostPat s.data = false →
      parseRepoUrl s = Except.error "Invalid GitHub URL") ∧
    parseRepoUrl "https://github.com/owneronly" =
      Except.error "Invalid GitHub URL" ∧
    removeFirstSub dotGit "proj.git".data = "proj".data ∧
    removeFirstSub dotGit "pro.gitject.git".data = "project.git".data := by
  refine ⟨?_, ?_, rfl, rfl, rfl⟩
  · intro o r ho ho2 hr hr2
    unfold parseRepoUrl
    have hsl : ("/" : String).data = ['/'] := rfl
    have hd : ("https://github.com/" ++ o ++ "/" ++ r).data =
        "https://github.com/".data ++ (o.data ++ '/' :: r.data) := by
      rw [String.data_append, String.data_append, String.data_append, hsl]
      simp [List.append_assoc]
    rw [hd, scanGit_url o.data r.data ho ho2 hr hr2]
  · intro s hs
    unfold parseRepoUrl
    rw [scanGit_none s.data hs]

/-- Witness for the amended C3 theorem at a concrete owner and repo. -/
theorem parseRepoUrl_amended_witness :
    parseRepoUrl ("https://github.com/" ++ "alice" ++ "/" ++ "proj.git") =
      Except.ok ("alice", "proj") := by
  have h := parseRepoUrl_amended.1 "alice" "proj.git" (by decide) (by decide)
    (by decide) (by decide)
  rw [h]
  rfl

/-- C1 (confirmed): `calculateScore` is a pure total function of the
`MetricsRecord`; it equals the sum of the seven dimension rules of the
section 4.3 table of the spec clamped at 100 by a final min-with-100, lies in
[0,100], and is deterministic (calling it twice on the same record gives
the same score). -/
theorem calculateScore_pure_total (m : MetricsRecord) :
    calculateScore m =
      min 100 (specReadmeRule m + specCommitVolumeRule m +
        specRecentActivityRule m + specTestsRule m + specCicdRule m +
        specBranchUsageRule m + specPullRequestsRule m) ∧
    calculateScore m ≤ 100 ∧
    calculateScore m = calculateScore m :=
  ⟨rfl, by rw [calculateScore_eq_ruleSum]; exact Nat.min_le_left _ _, rfl⟩

/-- C4 (confirmed): the scorer boundary cases — zero commits still earn
5 points from the commit-volume dimension, a README of exactly 1000 bytes
earns 15 (the >500 branch, not the >1000 one), and a single branch earns
0 from the branch-usage dimension. The last two conjuncts evaluate
`calculateScore` itself on records isolating those dimensions. -/
theorem scorer_boundary_cases :
    specCommitVolumeRule { total_commits := 0 } = 5 ∧
    specReadmeRule { has_readme := true, readme_length := 1000 } = 15 ∧
    specBranchUsageRule { branch_count := 1 } = 0 ∧
    calculateScore { has_readme := true, readme_length := 1000 } = 20 ∧
    calculateScore { branch_count := 1 } = 5 :=
  ⟨rfl, rfl, rfl, rfl, rfl⟩

/-- C8 (confirmed): the two end-to-end scoring scenarios of section 8 of
the spec — the strong record scores 20+25+15+20+10+5+5 = 100 and the
empty record scores 0+5+0+0+0+0+0 = 5. -/
theorem end_to_end_scores :
    calculateScore
      { total_commits := 120, recent_commits := 25, has_readme := true,
        readme_length := 1500, has_tests := true, has_cicd := true,
        branch_count := 5, total_prs := 15 } = 100 ∧
    calculateScore
      { total_commits := 0, recent_commits := 0, has_readme := false,
        readme_length := 0, has_tests := false, has_cicd := false,
        branch_count := 0, total_prs := 0 } = 5 :=
  ⟨rfl, rfl⟩

/-- C10 (confirmed): the implicit lower bound — for every metrics record
the score is at least 5, because the commit-volume dimension contributes
max(5, total_commits/2) ≥ 5 below 20 commits and at least 15 from 20
commits up; hence scores 0 through 4 are unreachable. -/
theorem calculateScore_ge_five (m : MetricsRecord) : 5 ≤ calculateScore m := by
  rw [calculateScore_eq_ruleSum]
  have h := specCommitVolumeRule_ge_five m
  unfold specRuleSum
  omega

/-- C2 counterexample: an environment where the repository-metadata call
succeeds but the languages call throws makes the whole fetch fail — the
languages failure is fatal too, contradicting the claim that the
metadata call is the only fatal one and that every other sub-fetch is
silently defaulted. -/
theorem fetch_languages_fatal_counterexample :
    envLangFail.repoInfo = Except.ok rdSample ∧
    fetchMetrics envLangFail = Except.error "Failed to fetch metrics: boom" :=
  ⟨rfl, rfl⟩

/-- C2 (amended): the metadata, languages, commits and branches calls are
all fatal (a thrown failure of any of them aborts the fetch with the
`Failed to fetch metrics:` error); only the README and pull-request
fetches are silently defaulted (README failure → has_readme=false,
readme_length=0; PR failure → total_prs=0), so whenever the four fatal
calls succeed the returned record is fully populated. -/
theorem fetch_fatal_and_defaults (env : FetchEnv) :
    (∀ e, env.repoInfo = Except.error e →
      fetchMetrics env = Except.error ("Failed to fetch metrics: " ++ e)) ∧
    (∀ rd e, env.repoInfo = Except.ok rd →
      env.languagesResp = Except.error e →
      fetchMetrics env = Except.error ("Failed to fetch metrics: " ++ e)) ∧
    (∀ rd langs e, env.repoInfo = Except.ok rd →
      env.languagesResp = Except.ok langs →
      env.commitsResp = Except.error e →
      fetchMetrics env = Except.error ("Failed to fetch metrics: " ++ e)) ∧
    (∀ rd langs cs e, env.repoInfo = Except.ok rd →
      env.languagesResp = Except.ok langs →
      env.commitsResp = Except.ok cs →
      env.branchesResp = Except.error e →
      fetchMetrics env = Except.error ("Failed to fetch metrics: " ++ e)) ∧
    (∀ rd langs cs bc,
      env.repoInfo = Except.ok rd → env.languagesResp = Except.ok langs →
      env.commitsResp = Except.ok cs → env.branchesResp = Except.ok bc →
      ∃ m, fetchMetrics env = Except.ok m ∧
        m.name = rd.name ∧ m.languages = langs ∧
        m.total_commits = cs.length ∧ m.branch_count = bc ∧
        (env.readmeResp.toOption = none →
          m.has_readme = false ∧ m.readme_length = 0) ∧
        (∀ n, env.readmeResp = Except.ok n →
          m.has_readme = true ∧ m.readme_length = n) ∧
        (env.prsResp.toOption = none → m.total_prs = 0) ∧
        (∀ n, env.prsResp = Except.ok n → m.total_prs = n)) := by
  refine ⟨?_, ?_, ?_, ?_, ?_⟩
  · intro e he
    simp only [fetchMetrics, he]
  · intro rd e h1 he
    simp only [fetchMetrics, h1, he]
  · intro rd langs e h1 h2 he
    simp only [fetchMetrics, h1, h2, he]
  · intro rd langs cs e h1 h2 h3 he
    simp only [fetchMetrics, h1, h2, h3, he]
  · intro rd langs cs bc h1 h2 h3 h4
    simp only [fetchMetrics, h1, h2, h3, h4]
    refine ⟨_, rfl, rfl, rfl, rfl, rfl, ?_, ?_, ?_, ?_⟩
    · intro hro
      cases hre : env.readmeResp with
      | ok n => rw [hre] at hro; simp [Except.toOption] at hro
      | error e => simp [hre]
    · intro n hn
      simp [hn]
    · intro hpo
      cases hpe : env.prsResp with
      | ok n => rw [hpe] at hpo; simp [Except.toOption] at hpo
      | error e => simp [hpe]
    · intro n hn
      simp [hn]

/-- Witness for the amended C2 theorem: concrete environments in which
the metadata, languages, commits and branches calls respectively fail
each make the fetch fail with the wrapped message, and the environment
in which all four succeed (README and PR failing) yields a populated
record with the documented defaults. -/
theorem fetch_fatal_and_defaults_witness :
    (fetchMetrics envRepoFail =
      Except.error "Failed to fetch metrics: down") ∧
    (fetchMetrics envLangFail =
      Except.error "Failed to fetch metrics: boom") ∧
    (fetchMetrics envCommitsFail =
      Except.error "Failed to fetch metrics: cfail") ∧
    (fetchMetrics envBranchesFail =
      Except.error "Failed to fetch metrics: bfail") ∧
    (∃ m, fetchMetrics envDegraded = Except.ok m ∧
      m.name = rdSample.name ∧ m.languages = ["JavaScript"] ∧
      m.total_commits = 2 ∧ m.branch_count = 2 ∧
      (envDegraded.readmeResp.toOption = none →
        m.has_readme = false ∧ m.readme_length = 0) ∧
      (∀ n, envDegraded.readmeResp = Except.ok n →
        m.has_readme = true ∧ m.readme_length = n) ∧
      (envDegraded.prsResp.toOption = none → m.total_prs = 0) ∧
      (∀ n, envDegraded.prsResp = Except.ok n → m.total_prs = n)) :=
  ⟨(fetch_fatal_and_defaults envRepoFail).1 "down" rfl,
   (fetch_fatal_and_defaults envLangFail).2.1 rdSample "boom" rfl rfl,
   (fetch_fatal_and_defaults envCommitsFail).2.2.1 rdSample ["JavaScript"]
     "cfail" rfl rfl rfl,
   (fetch_fatal_and_defaults envBranchesFail).2.2.2.1 rdSample
     ["JavaScript"] [true, false] "bfail" rfl rfl rfl rfl,
   (fetch_fatal_and_defaults envDegraded).2.2.2.2 rdSample ["JavaScript"]
     [true, false] 2 rfl rfl rfl rfl⟩

/-- C7 (confirmed): when the README fetch throws (including a 404), the
resulting record has has_readme=false and readme_length=0 and the fetch
still succeeds; when the pull-request fetch throws, total_prs=0 and the
fetch still succeeds — neither failure is propagated (the other, fatal
sub-fetches succeeding). -/
theorem readme_pr_failures_defaulted (env : FetchEnv) (rd : RepoData)
    (langs : List String) (cs : List Bool) (bc : Nat)
    (h1 : env.repoInfo = Except.ok rd)
    (h2 : env.languagesResp = Except.ok langs)
    (h3 : env.commitsResp = Except.ok cs)
    (h4 : env.branchesResp = Except.ok bc) :
    (∀ e, env.readmeResp = Except.error e →
      ∃ m, fetchMetrics env = Except.ok m ∧
        m.has_readme = false ∧ m.readme_length = 0) ∧
    (∀ e, env.prsResp = Except.error e →
      ∃ m, fetchMetrics env = Except.ok m ∧ m.total_prs = 0) := by
  constructor
  · intro e he
    simp only [fetchMetrics, h1, h2, h3, h4, he]
    exact ⟨_, rfl, rfl, rfl⟩
  · intro e he
    simp only [fetchMetrics, h1, h2, h3, h4, he]
    exact ⟨_, rfl, rfl⟩

/-- Witness for C7: in the concrete degraded environment both defaults
are observed and the fetch succeeds. -/
theorem readme_pr_failures_defaulted_witness :
    (∃ m, fetchMetrics envDegraded = Except.ok m ∧
      m.has_readme = false ∧ m.readme_length = 0) ∧
    (∃ m, fetchMetrics envDegraded = Except.ok m ∧ m.total_prs = 0) :=
  ⟨(readme_pr_failures_defaulted envDegraded rdSample ["JavaScript"]
      [true, false] 2 rfl rfl rfl rfl).1 "404" rfl,
   (readme_pr_failures_defaulted envDegraded rdSample ["JavaScript"]
      [true, false] 2 rfl rfl rfl rfl).2 "403" rfl⟩

/-- C9 (confirmed): every outcome of `analyzeRepository` is either the
parser failure or the fetch failure wrapped as `Analysis failed: ` plus
the originating message, or the complete `{score, summary, roadmap,
metrics}` payload — no other error shape and no partial result crosses
the pipeline boundary. -/
theorem analyze_wraps_failures (url : String) (env : FetchEnv)
    (ai : Except String String) :
    (∃ e, parseRepoUrl url = Except.error e ∧
      analyzeRepository url env ai =
        Except.error ("Analysis failed: " ++ e)) ∨
    (∃ pr e, parseRepoUrl url = Except.ok pr ∧
      fetchMetrics env = Except.error e ∧
      analyzeRepository url env ai =
        Except.error ("Analysis failed: " ++ e)) ∨
    (∃ pr m, parseRepoUrl url = Except.ok pr ∧
      fetchMetrics env = Except.ok m ∧
      analyzeRepository url env ai = Except.ok
        { score := calculateScore m
          summary := (generateAIInsights ai m (calculateScore m)).summary
          roadmap := (generateAIInsights ai m (calculateScore m)).roadmap
          metrics := m }) := by
  cases hp : parseRepoUrl url with
  | error e =>
    exact Or.inl ⟨e, rfl, by simp only [analyzeRepository, hp]⟩
  | ok pr =>
    cases hf : fetchMetrics env with
    | error e =>
      exact Or.inr (Or.inl ⟨pr, e, rfl, rfl,
        by simp only [analyzeRepository, hp, hf]⟩)
    | ok m =>
      exact Or.inr (Or.inr ⟨pr, m, rfl, rfl,
        by simp only [analyzeRepository, hp, hf]⟩)



theorem roadParts_no_marker (l : List Char)
    (h : hasSub roadMarker l = false) : roadParts l = (l, none) := by
  unfold hasSub at h
  unfold roadParts
  cases hf : findSub roadMarker l with
  | none => rfl
  | some p => rw [hf] at h; simp at h

theorem roadmapItems_nil_of_no_bullets (l : List Char)
    (h : (splitChar '\n' (roadmapText l)).filter startsWithDash = []) :
    roadmapItems l = [] := by
  unfold roadmapItems
  rw [h]
  rfl

/-- C6 (confirmed): the insight fallback triggers only when the
generation call throws; a successfully returned reply that lacks the
`ROADMAP:` marker, or whose post-marker text has no hyphen-bulleted
lines, yields the parsed summary with an empty roadmap — never the
fallback template. -/
theorem insights_malformed_reply_no_fallback (m : MetricsRecord)
    (sc : Nat) (r : String) :
    ((splitChar '\n' (roadmapText r.data)).filter startsWithDash = [] →
      generateAIInsights (Except.ok r) m sc = ⟨⟨summaryText r.data⟩, []⟩ ∧
      generateAIInsights (Except.ok r) m sc ≠ fallbackInsights m sc) ∧
    (hasSub roadMarker r.data = false →
      generateAIInsights (Except.ok r) m sc = ⟨⟨summaryText r.data⟩, []⟩ ∧
      generateAIInsights (Except.ok r) m sc ≠ fallbackInsights m sc) := by
  have main : ∀ _ : (splitChar '\n'
        (roadmapText r.data)).filter startsWithDash = [],
      generateAIInsights (Except.ok r) m sc = ⟨⟨summaryText r.data⟩, []⟩ ∧
      generateAIInsights (Except.ok r) m sc ≠ fallbackInsights m sc := by
    intro h
    have hi : roadmapItems r.data = [] := roadmapItems_nil_of_no_bullets _ h
    have he : generateAIInsights (Except.ok r) m sc =
        ⟨⟨summaryText r.data⟩, []⟩ := by
      show parseReply r = _
      unfold parseReply
      rw [hi]
      rfl
    refine ⟨he, ?_⟩
    rw [he]
    intro heq
    have hro := congrArg InsightResult.roadmap heq
    simp [fallbackInsights, fallbackRoadmap] at hro
  refine ⟨main, ?_⟩
  intro h
  have ht : roadmapText r.data = [] := by
    unfold roadmapText
    rw [roadParts_no_marker r.data h]
  exact main (by rw [ht]; rfl)

/-- Witness for C6 at the concrete marker-free reply `hello`. -/
theorem insights_malformed_reply_no_fallback_witness :
    generateAIInsights (Except.ok "hello") mrZero 0 =
      ⟨⟨summaryText "hello".data⟩, []⟩ ∧
    generateAIInsights (Except.ok "hello") mrZero 0 ≠
      fallbackInsights mrZero 0 :=
  (insights_malformed_reply_no_fallback mrZero 0 "hello").2 (by rfl)

/-- C5 counterexample: the roadmap mapping strips the leading `-` only
when it is the very first character of the line — the bullet ` - b`
(leading whitespace) passes the filter but keeps its dash, contradicting
the claim that every kept line has its leading `-` stripped; and the
summary rule removes the first occurrence of `SUMMARY:` anywhere, not
only a leading token. -/
theorem parse_reply_counterexample :
    parseReply "SUMMARY: s\nROADMAP:\n- a\n - b" = ⟨"s", ["a", "- b"]⟩ ∧
    (["a", "- b"] : List String) ≠ ["a", "b"] ∧
    parseReply "x SUMMARY: y\nROADMAP:\n- a" = ⟨"x  y", ["a"]⟩ ∧
    ("x  y" : String) ≠ "x SUMMARY: y" :=
  ⟨rfl, by decide, rfl, by decide⟩

/-- C5 (amended): the parse splits on the literal `ROADMAP:`; the summary
is the pre-marker text with the first occurrence of `SUMMARY:` removed
and trimmed; the kept roadmap lines are those whose trimmed form starts
with `-`, stripped of the dash and following whitespace only when the
dash opens the raw line, with empty results discarded and order
preserved — so a well-formed reply with 5 line-initial bullets yields
that 5-element roadmap; and when the generation call throws, the
deterministic fallback is returned, whose roadmap always has exactly 6
items. -/
theorem generateAIInsights_contract :
    (∀ (m : MetricsRecord) (sc : Nat) (e : String),
      generateAIInsights (Except.error e) m sc = fallbackInsights m sc ∧
      (fallbackInsights m sc).roadmap.length = 6) ∧
    (∀ r : String, (generateAIInsights (Except.ok r) mrZero 0).summary =
      ⟨jsTrim (removeFirstSub summaryMarker (roadParts r.data).1)⟩) ∧
    parseReply
        "SUMMARY: Solid project.\nROADMAP:\n- one\n- two\n- three\n- four\n- five" =
      ⟨"Solid project.", ["one", "two", "three", "four", "five"]⟩ :=
  ⟨fun _ _ _ => ⟨rfl, rfl⟩, fun _ => rfl, rfl⟩
